import Mathlib

/-!
Verification model of `src/denseclus/DenseClus.py` (amazon-denseclus).

The file shallowly embeds the `DenseClus` class: its constructor
(configuration validation and merging, global side effects), the
`fit` pipeline (feature extraction, the two UMAP fits, embedding
fusion, HDBSCAN fit), the `_predict_base`/`predict`/`predict_proba`
path and `score`.

The external collaborators (umap-learn, hdbscan, pandas and the
Feature Splitter `denseclus.utils`) are not part of the source file,
so their outputs are represented symbolically: a fitted UMAP model is
a term recording exactly the keyword arguments and training input the
orchestrator passed to the collaborator, and matrix arithmetic on
transformed coordinates is recorded by symbolic elementwise nodes.
The nondeterminism of an unseeded, multi-threaded collaborator fit is
modelled by an environment oracle that a seeded single-threaded fit
ignores (spec section 5 determinism policy).
-/

namespace DenseClusModel

/-- A Python scalar value as it appears in the configuration
dictionaries of `DenseClus.__init__` (ints, floats, strings, bools,
and `None`). -/
inductive Value where
  | int (n : Int)
  | float (q : Rat)
  | str (s : String)
  | bool (b : Bool)
  | pynone
deriving DecidableEq, Repr

/-- A Python dictionary with string keys, in insertion order. -/
abbrev Dict := List (String × Value)

/-- `d[k] = v` on a Python dict: replace the value if the key is
present, otherwise append the new binding at the end. -/
def setKey (d : Dict) (k : String) (v : Value) : Dict :=
  if d.any (fun p => p.1 = k) then
    d.map (fun p => if p.1 = k then (k, v) else p)
  else
    d ++ [(k, v)]

/-- Python `d.update(u)`: apply each binding of `u` to `d` in order. -/
def dictUpdate (d u : Dict) : Dict :=
  u.foldl (fun acc p => setKey acc p.1 p.2) d

/-- The Python exceptions the modelled code can raise. `notFittedError`
is the sklearn `NotFittedError` named by the spec; it is part of the
error taxonomy so that statements can distinguish it from the plain
`AttributeError` produced by accessing a missing instance attribute. -/
inductive PyError where
  | valueError (msg : String)
  | typeError (msg : String)
  | attributeError (attr : String)
  | keyError (key : String)
  | notFittedError (msg : String)
deriving DecidableEq, Repr

/-- Python `str(e)` on the modelled exceptions. -/
def PyError.str : PyError → String
  | .valueError m => m
  | .typeError m => m
  | .attributeError a => a
  | .keyError k => k
  | .notFittedError m => m

/-- A pandas DataFrame: a rectangular table with named columns of
mixed type (spec section 3, RawDataset). Only its identity matters to
the orchestrator; its content is opaque payload. -/
structure DataFrame where
  cols : List String
  rows : List (List Value)
deriving DecidableEq, Repr

/-- An arbitrary Python object passed to `fit` or `predict`: either a
DataFrame or some non-table value (described by a string). -/
inductive PyObj where
  | df (d : DataFrame)
  | nonDf (descr : String)
deriving DecidableEq, Repr

/-- Symbolic values produced by the collaborators during fit/predict:
matrices (feature-split outputs, transformed coordinates, elementwise
numpy arithmetic) and fitted manifold models (UMAP fits and the
model-level compositions that umap-learn exposes through the `*`, `+`
and `-` operators). A `umapFitted` node records the keyword arguments
and the training input the orchestrator passed to `umap.UMAP(...).fit`
together with the nondeterministic noise the collaborator contributed. -/
inductive MVal where
  | extractCat (d : DataFrame)
  | extractNum (d : DataFrame)
  | umapFitted (params : Dict) (train : MVal) (noise : Nat)
  | transform (model : MVal) (x : MVal)
  | embedding (model : MVal)
  | emul (a b : MVal)
  | eadd (a b : MVal)
  | esub (a b : MVal)
  | mintersect (a b : MVal)
  | munion (a b : MVal)
  | mcontrast (a b : MVal)
  | clusterLabels (params : Dict) (train : MVal)
  | clusterProbabilities (params : Dict) (train : MVal)
  | approxLabels (params : Dict) (train : MVal) (x : MVal)
  | approxStrengths (params : Dict) (train : MVal) (x : MVal)
deriving DecidableEq, Repr

/-- A fitted HDBSCAN model: the keyword arguments and training input
the orchestrator passed to `hdbscan.HDBSCAN(...).fit`. -/
structure HDBSCANModel where
  params : Dict
  trainData : MVal
deriving DecidableEq, Repr

/-- The `labels_` attribute of a fitted HDBSCAN model (symbolic). -/
def HDBSCANModel.labels_ (h : HDBSCANModel) : MVal :=
  .clusterLabels h.params h.trainData

/-- The `probabilities_` attribute of a fitted HDBSCAN model
(symbolic strengths computed during fit). -/
def HDBSCANModel.probabilities_ (h : HDBSCANModel) : MVal :=
  .clusterProbabilities h.params h.trainData

/-- The collaborator environment for one call: the scheduling oracle
feeding nondeterminism into unseeded multi-threaded fits, and failure
injection describing which delegated fit calls the collaborators make
raise (keyed on the keyword arguments and training input of the call).
`none` means the collaborator call succeeds. -/
structure Env where
  oracle : Nat
  umapFitExc : Dict → MVal → Option PyError
  hdbscanFitExc : Dict → MVal → Option PyError

/-- Python keyword-argument expansion `f(k1 = v1, ..., **d)`: raises a
TypeError when `d` repeats one of the explicit keywords, otherwise the
call receives the explicit pairs followed by the bindings of `d`. -/
def kwargsExpand (explicit d : Dict) : Except PyError Dict :=
  match explicit.find? (fun p => d.any (fun q => q.1 = p.1)) with
  | some p => .error (.typeError ("got multiple values for keyword argument " ++ p.1))
  | none => .ok (explicit ++ d)

/-- Whether a umap keyword-argument list carries an integer
`random_state` together with `n_jobs = 1`: the single-threaded,
seeded mode in which the Manifold Learner is reproducible
(spec section 5 determinism policy). -/
def seededSingle (params : Dict) : Bool :=
  (match params.lookup "random_state" with
   | some (.int _) => true
   | _ => false)
  && (params.lookup "n_jobs" == some (.int 1))

/-- The collaborator call `umap.UMAP(**params).fit(train)`. In
single-threaded seeded mode the result is independent of the
scheduling oracle; otherwise the oracle is recorded as the
nondeterministic contribution of the multi-threaded run. -/
def umapFit (env : Env) (params : Dict) (train : MVal) : Except PyError MVal :=
  match env.umapFitExc params train with
  | some e => .error e
  | none => .ok (.umapFitted params train (if seededSingle params then 0 else env.oracle))

/-- The collaborator call `hdbscan.HDBSCAN(**params).fit(train)`.
HDBSCAN has no stochastic component: given its keyword arguments and
training input the fitted model is determined. -/
def hdbscanFit (env : Env) (params : Dict) (train : MVal) : Except PyError HDBSCANModel :=
  match env.hdbscanFitExc params train with
  | some e => .error e
  | none => .ok ⟨params, train⟩

/-- The `hdbscan.approximate_predict(model, points)` call: the pair of
per-row labels and strengths, symbolic in the model and the points. -/
def approximate_predict (h : HDBSCANModel) (x : MVal) : MVal × MVal :=
  (.approxLabels h.params h.trainData x, .approxStrengths h.params h.trainData x)

/-- Modelled from the spec: `extract_categorical` from
`denseclus.utils` (the Feature Splitter collaborator, whose source is
not in the repository snapshot). Spec sections 3 and 6: it derives the
categorical matrix from the raw table and fails with a
TypeError-class condition if the argument is not a table of the
expected kind. The forwarded `**kwargs` do not affect the model. -/
def extract_categorical (obj : PyObj) (_kwargs : Dict) : Except PyError MVal :=
  match obj with
  | .df d => .ok (.extractCat d)
  | .nonDf descr => .error (.typeError ("df must be a pandas DataFrame: " ++ descr))

/-- Modelled from the spec: `extract_numerical` from
`denseclus.utils`, the numerical half of the Feature Splitter;
same contract as `extract_categorical`. -/
def extract_numerical (obj : PyObj) (_kwargs : Dict) : Except PyError MVal :=
  match obj with
  | .df d => .ok (.extractNum d)
  | .nonDf descr => .error (.typeError ("df must be a pandas DataFrame: " ++ descr))

/-- The process-global warning hook: `warnings.warn` is either the
interpreter default or the no-op function the constructor installs. -/
inductive WarnFn where
  | default
  | noop
deriving DecidableEq, Repr

/-- Logging levels used by the module logger. -/
inductive LogLevel where
  | debug
  | info
  | error
deriving DecidableEq, Repr

/-- One logging call: its level and formatted message. -/
abbrev LogEntry := LogLevel × String

/-- Process-global state the constructor mutates as a side effect:
the `warnings.warn` hook, the seed last planted into the global numpy
random generator, and the level of the module logger. -/
structure Globals where
  warningsWarn : WarnFn
  npSeed : Option Int
  loggerLevel : LogLevel
deriving DecidableEq, Repr

/-- The `DenseClus` instance: constructor-time configuration plus the
fit-produced attributes, each `none` until the corresponding
`self.x_ = ...` assignment has run (a missing attribute reads as an
AttributeError, as in Python). -/
structure DenseClus where
  random_state : Option Int
  umap_combine_method : String
  verbose : Bool
  umap_params : List (String × Dict)
  hdbscan_params : Dict
  kwargs : Dict
  categorical_ : Option MVal := none
  numerical_ : Option MVal := none
  categorical_umap_ : Option MVal := none
  numerical_umap_ : Option MVal := none
  mapper_ : Option MVal := none
  hdbscan_ : Option HDBSCANModel := none
deriving DecidableEq, Repr

/-- The default UMAP parameter groups of `__init__`. -/
def default_umap_params : List (String × Dict) :=
  [("categorical",
     [("metric", .str "dice"), ("n_neighbors", .int 30),
      ("n_components", .int 5), ("min_dist", .float 0)]),
   ("numerical",
     [("metric", .str "l2"), ("n_neighbors", .int 30),
      ("n_components", .int 5), ("min_dist", .float 0)]),
   ("combined",
     [("n_neighbors", .int 30), ("min_dist", .float 0),
      ("n_components", .int 5)])]

/-- The default HDBSCAN parameters of `__init__`. -/
def default_hdbscan_params : Dict :=
  [("min_cluster_size", .int 100), ("min_samples", .int 15),
   ("gen_min_span_tree", .bool true), ("metric", .str "euclidean")]

/-- `default_umap_params[key].update(umap_params[key])`: shallow-merge
the user group dict over the default group named `k`, in place. -/
def updateGroup (acc : List (String × Dict)) (k : String) (v : Dict) :
    List (String × Dict) :=
  acc.map (fun p => if p.1 = k then (p.1, dictUpdate p.2 v) else p)

/-- The `for key in umap_params` loop of `__init__`: merge each user
group over its default group, raising on the first key absent from
the defaults. -/
def mergeLoop : List (String × Dict) → List (String × Dict) →
    Except PyError (List (String × Dict))
  | acc, [] => .ok acc
  | acc, (k, v) :: rest =>
    if (acc.lookup k).isSome then mergeLoop (updateGroup acc k v) rest
    else .error (.valueError ("Invalid key \x27" ++ k ++ "\x27 in umap_params"))

/-- `DenseClus.__init__`. Validates the combine method, merges the
optional user parameter dictionaries against the defaults, and
performs the global side effects: with `verbose` unset the module
logger is set to ERROR and `warnings.warn` is replaced by a no-op,
and an integer `random_state` is planted into the global numpy
random generator. Returns the new instance and the updated process
globals, or the exception `__init__` raises. -/
def DenseClus.init (g : Globals) (random_state : Option Int)
    (umap_combine_method : String) (verbose : Bool)
    (umap_params : Option (List (String × Dict)))
    (hdbscan_params : Option Dict) (kwargs : Dict) :
    Except PyError (DenseClus × Globals) :=
  if umap_combine_method ∈
      ["intersection", "union", "contrast", "intersection_union_mapper"] then
    let mergedE : Except PyError (List (String × Dict)) :=
      match umap_params with
      | some up => if up ≠ [] then mergeLoop default_umap_params up
                   else .ok default_umap_params
      | none => .ok default_umap_params
    match mergedE with
    | .error e => .error e
    | .ok merged =>
      let hps : Dict :=
        match hdbscan_params with
        | some hp => if hp ≠ [] then hp else default_hdbscan_params
        | none => default_hdbscan_params
      let g1 : Globals :=
        if verbose then { g with loggerLevel := .debug }
        else { g with loggerLevel := .error, warningsWarn := .noop }
      let g2 : Globals :=
        match random_state with
        | some n => { g1 with npSeed := some n }
        | none => g1
      .ok ({ random_state := random_state,
             umap_combine_method := umap_combine_method,
             verbose := verbose,
             umap_params := merged,
             hdbscan_params := hps,
             kwargs := kwargs }, g2)
  else
    .error (.valueError "umap_combine_method must be valid selection")

/-- The numpy value passed as `random_state` to every collaborator
constructor: the integer seed, or Python `None`. -/
def rsValue : Option Int → Value
  | some n => .int n
  | none => .pynone

/-- `n_jobs = 1 if self.random_state is not None else -1`. -/
def nJobsValue : Option Int → Value
  | some _ => .int 1
  | none => .int (-1)

/-- `self.umap_params[k]`: dictionary subscript, raising KeyError when
the group is absent. -/
def subscriptGroup (ps : List (String × Dict)) (k : String) : Except PyError Dict :=
  match ps.lookup k with
  | some d => .ok d
  | none => .error (.keyError k)

/-- `DenseClus._fit_categorical`: inside a try-block, fit a UMAP with
the categorical parameter group on `self.categorical_`; on success
assign `self.categorical_umap_`; on any exception log
`"Failed to fit numerical UMAP: ..."` (the message the source uses in
this except-branch) and re-raise. Returns the call outcome, the
instance as mutated by the call, and the logging calls made. -/
def DenseClus._fit_categorical (env : Env) (st : DenseClus) :
    Except PyError Unit × DenseClus × List LogEntry :=
  let l0 : List LogEntry := [(.info, "Fitting UMAP for categorical data")]
  let inner : Except PyError MVal :=
    match subscriptGroup st.umap_params "categorical" with
    | .error e => .error e
    | .ok grp =>
      match kwargsExpand
          [("random_state", rsValue st.random_state),
           ("n_jobs", nJobsValue st.random_state),
           ("verbose", .bool false)] grp with
      | .error e => .error e
      | .ok params =>
        match st.categorical_ with
        | none => .error (.attributeError "categorical_")
        | some cat => umapFit env params cat
  match inner with
  | .error e =>
    (.error e, st, l0 ++ [(.error, "Failed to fit numerical UMAP: " ++ e.str)])
  | .ok m =>
    (.ok (), { st with categorical_umap_ := some m },
     l0 ++ [(.info, "Categorical UMAP fitted successfully")])

/-- `DenseClus._fit_numerical`: inside a try-block, fit a UMAP with
the numerical parameter group on `self.numerical_`; on success assign
`self.numerical_umap_`; on any exception log the failure and
re-raise. -/
def DenseClus._fit_numerical (env : Env) (st : DenseClus) :
    Except PyError Unit × DenseClus × List LogEntry :=
  let l0 : List LogEntry := [(.info, "Fitting UMAP for Numerical data")]
  let inner : Except PyError MVal :=
    match subscriptGroup st.umap_params "numerical" with
    | .error e => .error e
    | .ok grp =>
      match kwargsExpand
          [("random_state", rsValue st.random_state),
           ("n_jobs", nJobsValue st.random_state),
           ("verbose", .bool false)] grp with
      | .error e => .error e
      | .ok params =>
        match st.numerical_ with
        | none => .error (.attributeError "numerical_")
        | some num => umapFit env params num
  match inner with
  | .error e =>
    (.error e, st, l0 ++ [(.error, "Failed to fit numerical UMAP: " ++ e.str)])
  | .ok m =>
    (.ok (), { st with numerical_umap_ := some m },
     l0 ++ [(.info, "Numerical UMAP fitted successfully")])

/-- `DenseClus._umap_embeddings`: combine the two fitted embedding
models into `self.mapper_` according to `self.umap_combine_method`,
at the model level: `*` is the intersect composition, `+` the union
composition, `-` the contrast composition. For
`intersection_union_mapper`, first fit the auxiliary combined-group
UMAP on `self.numerical_` (the raw numerical matrix) and intersect it
with the union of the two fitted models. No try-block: collaborator
exceptions propagate unlogged. -/
def DenseClus._umap_embeddings (env : Env) (st : DenseClus) :
    Except PyError Unit × DenseClus × List LogEntry :=
  let l0 : List LogEntry :=
    [(.info, "Combining UMAP embeddings using method: " ++ st.umap_combine_method)]
  if st.umap_combine_method = "intersection" then
    match st.numerical_umap_ with
    | none => (.error (.attributeError "numerical_umap_"), st, l0)
    | some nu =>
      match st.categorical_umap_ with
      | none => (.error (.attributeError "categorical_umap_"), st, l0)
      | some cu => (.ok (), { st with mapper_ := some (.mintersect nu cu) }, l0)
  else if st.umap_combine_method = "union" then
    match st.numerical_umap_ with
    | none => (.error (.attributeError "numerical_umap_"), st, l0)
    | some nu =>
      match st.categorical_umap_ with
      | none => (.error (.attributeError "categorical_umap_"), st, l0)
      | some cu => (.ok (), { st with mapper_ := some (.munion nu cu) }, l0)
  else if st.umap_combine_method = "contrast" then
    match st.numerical_umap_ with
    | none => (.error (.attributeError "numerical_umap_"), st, l0)
    | some nu =>
      match st.categorical_umap_ with
      | none => (.error (.attributeError "categorical_umap_"), st, l0)
      | some cu => (.ok (), { st with mapper_ := some (.mcontrast nu cu) }, l0)
  else if st.umap_combine_method = "intersection_union_mapper" then
    match subscriptGroup st.umap_params "combined" with
    | .error e => (.error e, st, l0)
    | .ok grp =>
      match kwargsExpand
          [("random_state", rsValue st.random_state),
           ("n_jobs", nJobsValue st.random_state)] grp with
      | .error e => (.error e, st, l0)
      | .ok params =>
        match st.numerical_ with
        | none => (.error (.attributeError "numerical_"), st, l0)
        | some numdata =>
          match umapFit env params numdata with
          | .error e => (.error e, st, l0)
          | .ok aux =>
            match st.numerical_umap_ with
            | none => (.error (.attributeError "numerical_umap_"), st, l0)
            | some nu =>
              match st.categorical_umap_ with
              | none => (.error (.attributeError "categorical_umap_"), st, l0)
              | some cu =>
                (.ok (),
                 { st with mapper_ := some (.mintersect aux (.munion nu cu)) }, l0)
  else
    (.error (.valueError "Select valid UMAP combine method"), st,
     l0 ++ [(.error, "Invalid UMAP combine method: " ++ st.umap_combine_method)])

/-- `DenseClus._fit_hdbscan`: fit
`hdbscan.HDBSCAN(prediction_data=True, **self.hdbscan_params)` on
`self.mapper_.embedding_` and assign `self.hdbscan_`. No try-block:
collaborator exceptions propagate unlogged. -/
def DenseClus._fit_hdbscan (env : Env) (st : DenseClus) :
    Except PyError Unit × DenseClus × List LogEntry :=
  let l0 : List LogEntry := [(.info, "Fitting HDBSCAN with default parameters")]
  match kwargsExpand [("prediction_data", .bool true)] st.hdbscan_params with
  | .error e => (.error e, st, l0)
  | .ok params =>
    match st.mapper_ with
    | none => (.error (.attributeError "mapper_"), st, l0)
    | some mp =>
      match hdbscanFit env params (.embedding mp) with
      | .error e => (.error e, st, l0)
      | .ok h => (.ok (), { st with hdbscan_ := some h }, l0 ++ [(.info, "HDBSCAN fit")])

/-- `DenseClus.fit`: type-check the argument, extract the categorical
and numerical matrices, then run the four fitting steps in order,
stopping at the first exception. Returns the call outcome, the
instance as mutated so far (Python mutates `self` in place, so a
failed fit leaves the partial assignments behind), and the logging
calls made. -/
def DenseClus.fit (env : Env) (st : DenseClus) (df : PyObj) :
    Except PyError Unit × DenseClus × List LogEntry :=
  match df with
  | .nonDf _ => (.error (.typeError "Requires DataFrame as input"), st, [])
  | .df _ =>
    let l1 : List LogEntry := [(.info, "Extracting categorical features")]
    match extract_categorical df st.kwargs with
    | .error e => (.error e, st, l1)
    | .ok cat =>
      let st1 := { st with categorical_ := some cat }
      let l2 := l1 ++ [(.info, "Extracting numerical features")]
      match extract_numerical df st1.kwargs with
      | .error e => (.error e, st1, l2)
      | .ok num =>
        let st2 := { st1 with numerical_ := some num }
        let l3 := l2 ++ [(.info, "Fitting categorical UMAP")]
        match st2._fit_categorical env with
        | (.error e, st3, lc) => (.error e, st3, l3 ++ lc)
        | (.ok _, st3, lc) =>
          let l4 := l3 ++ lc ++ [(.info, "Fitting numerical UMAP")]
          match st3._fit_numerical env with
          | (.error e, st4, ln) => (.error e, st4, l4 ++ ln)
          | (.ok _, st4, ln) =>
            let l5 := l4 ++ ln ++ [(.info, "Mapping/Combining Embeddings")]
            match st4._umap_embeddings env with
            | (.error e, st5, lu) => (.error e, st5, l5 ++ lu)
            | (.ok _, st5, lu) =>
              let l6 := l5 ++ lu ++ [(.info, "Fitting HDBSCAN...")]
              match st5._fit_hdbscan env with
              | (.error e, st6, lh) => (.error e, st6, l6 ++ lh)
              | (.ok _, st6, lh) => (.ok (), st6, l6 ++ lh)

/-- `DenseClus._predict_base`: extract the matrices from the new
table, transform them through the already-fitted embedding models,
combine the transformed coordinate matrices according to
`self.umap_combine_method` (elementwise numpy arithmetic for the
three simple strategies; for the hybrid strategy a fresh combined
UMAP is fit on the transformed numerical coordinates and composed
with their elementwise sum), and delegate to
`hdbscan.approximate_predict`. Accessing a fit-produced attribute
that was never assigned raises AttributeError. -/
def DenseClus._predict_base (env : Env) (st : DenseClus) (df_new : PyObj) :
    Except PyError (MVal × MVal) × List LogEntry :=
  match extract_categorical df_new st.kwargs with
  | .error e => (.error e, [])
  | .ok catNew =>
    match extract_numerical df_new st.kwargs with
    | .error e => (.error e, [])
    | .ok numNew =>
      match st.categorical_umap_ with
      | none => (.error (.attributeError "categorical_umap_"), [])
      | some cu =>
        let categorical_embedding := MVal.transform cu catNew
        match st.numerical_umap_ with
        | none => (.error (.attributeError "numerical_umap_"), [])
        | some nu =>
          let numerical_embedding := MVal.transform nu numNew
          let comb : Except PyError MVal × List LogEntry :=
            if st.umap_combine_method = "intersection" then
              (.ok (.emul numerical_embedding categorical_embedding), [])
            else if st.umap_combine_method = "union" then
              (.ok (.eadd numerical_embedding categorical_embedding), [])
            else if st.umap_combine_method = "contrast" then
              (.ok (.esub numerical_embedding categorical_embedding), [])
            else if st.umap_combine_method = "intersection_union_mapper" then
              let l : List LogEntry :=
                [(.info, "Refitting new UMAP for Intersection Mapper")]
              match subscriptGroup st.umap_params "combined" with
              | .error e => (.error e, l)
              | .ok grp =>
                match kwargsExpand
                    [("random_state", rsValue st.random_state),
                     ("n_jobs", nJobsValue st.random_state)] grp with
                | .error e => (.error e, l)
                | .ok params =>
                  match umapFit env params numerical_embedding with
                  | .error e => (.error e, l)
                  | .ok aux =>
                    (.ok (.mintersect aux
                       (.eadd numerical_embedding categorical_embedding)), l)
            else
              (.error (.valueError "Select valid UMAP combine method"), [])
          match comb with
          | (.error e, l) => (.error e, l)
          | (.ok mapper_new, l) =>
            match st.hdbscan_ with
            | none => (.error (.attributeError "hdbscan_"), l)
            | some h => (.ok (approximate_predict h mapper_new), l)

/-- `DenseClus.predict`: the labels half of `_predict_base`. -/
def DenseClus.predict (env : Env) (st : DenseClus) (df_new : PyObj) :
    Except PyError MVal × List LogEntry :=
  match st._predict_base env df_new with
  | (.error e, l) => (.error e, l)
  | (.ok p, l) => (.ok p.1, l)

/-- `DenseClus.predict_proba`: the strengths half of `_predict_base`. -/
def DenseClus.predict_proba (env : Env) (st : DenseClus) (df_new : PyObj) :
    Except PyError MVal × List LogEntry :=
  match st._predict_base env df_new with
  | (.error e, l) => (.error e, l)
  | (.ok p, l) => (.ok p.2, l)

/-- `DenseClus.score`: return `self.hdbscan_.labels_`; accessing the
attribute on a never-clustered instance raises AttributeError. -/
def DenseClus.score (st : DenseClus) : Except PyError MVal :=
  match st.hdbscan_ with
  | none => .error (.attributeError "hdbscan_")
  | some h => .ok h.labels_

/-- Whether a call outcome is an exception. -/
def isExcErr {α : Type} : Except PyError α → Bool
  | .error _ => true
  | .ok _ => false

/-- Whether a call outcome is specifically the sklearn
`NotFittedError` named by the spec. -/
def isNotFittedErr {α : Type} : Except PyError α → Bool
  | .error (.notFittedError _) => true
  | _ => false

/-! ### Concrete fixtures used by witnesses and counterexamples -/

/-- Process globals before any construction. -/
def g0 : Globals := ⟨.default, none, .error⟩

/-- A small concrete mixed-type table. -/
def df0 : DataFrame := ⟨["a", "b"], [[.int 1, .str "x"], [.int 2, .str "y"]]⟩

/-- A benign environment: no injected collaborator failures. -/
def env0 : Env := ⟨0, fun _ _ => none, fun _ _ => none⟩

/-- Construct an instance with default arguments except the combine
method, falling back to a dummy instance if `__init__` raised (it
does not on the fixtures used below). -/
def initOr (m : String) : DenseClus :=
  match DenseClus.init g0 (some 42) m false none none [] with
  | .ok p => p.1
  | .error _ =>
    { random_state := none, umap_combine_method := m, verbose := false,
      umap_params := [], hdbscan_params := [], kwargs := [] }

/-- The instance obtained by constructing with combine method `m` and
default arguments, then fitting `df0` in the benign environment. -/
def fitted (m : String) : DenseClus :=
  (DenseClus.fit env0 (initOr m) (.df df0)).2.1

/-- The categorical UMAP model produced by the default seeded fit of
`df0`. -/
def catM0 : MVal :=
  .umapFitted
    [("random_state", .int 42), ("n_jobs", .int 1), ("verbose", .bool false),
     ("metric", .str "dice"), ("n_neighbors", .int 30),
     ("n_components", .int 5), ("min_dist", .float 0)]
    (.extractCat df0) 0

/-- The numerical UMAP model produced by the default seeded fit of
`df0`. -/
def numM0 : MVal :=
  .umapFitted
    [("random_state", .int 42), ("n_jobs", .int 1), ("verbose", .bool false),
     ("metric", .str "l2"), ("n_neighbors", .int 30),
     ("n_components", .int 5), ("min_dist", .float 0)]
    (.extractNum df0) 0

/-- The HDBSCAN model produced by the default seeded intersection fit
of `df0`. -/
def hdb0 : HDBSCANModel :=
  ⟨("prediction_data", .bool true) :: default_hdbscan_params,
   .embedding (.mintersect numM0 catM0)⟩

/-- The auxiliary combined-group UMAP model produced at fit time by
the default seeded intersection_union_mapper fit of `df0`: its
training input is the raw numerical matrix. -/
def auxM0 : MVal :=
  .umapFitted
    [("random_state", .int 42), ("n_jobs", .int 1),
     ("n_neighbors", .int 30), ("min_dist", .float 0), ("n_components", .int 5)]
    (.extractNum df0) 0

/-- An environment whose Manifold Learner raises on the categorical
matrix of `df0` and succeeds elsewhere. -/
def envCatFail : Env :=
  ⟨0, fun _ t => if t = .extractCat df0 then some (.valueError "boom") else none,
   fun _ _ => none⟩

/-- An environment whose Cluster Engine raises on every fit. -/
def envHdbFail : Env :=
  ⟨0, fun _ _ => none, fun _ _ => some (.valueError "hboom")⟩

/-- Construct an instance with an explicit user `hdbscan_params`
mapping and otherwise default arguments. -/
def initWithHdb (hp : Dict) : DenseClus :=
  match DenseClus.init g0 (some 42) "intersection" false none (some hp) [] with
  | .ok p => p.1
  | .error _ =>
    { random_state := none, umap_combine_method := "intersection", verbose := false,
      umap_params := [], hdbscan_params := [], kwargs := [] }

/-! ### Helper lemmas -/

instance {ε α : Type} [DecidableEq ε] [DecidableEq α] : DecidableEq (Except ε α) :=
  fun x y =>
    match x, y with
    | .error a, .error b =>
      if h : a = b then isTrue (by rw [h])
      else isFalse (fun hc => by cases hc; exact h rfl)
    | .ok a, .ok b =>
      if h : a = b then isTrue (by rw [h])
      else isFalse (fun hc => by cases hc; exact h rfl)
    | .error _, .ok _ => isFalse (fun hc => by cases hc)
    | .ok _, .error _ => isFalse (fun hc => by cases hc)

/-- The invalid-configuration-key message never coincides with the
invalid-strategy message, whatever the offending key is (the former
ends in `umap_params`, the latter in `selection`). -/
theorem invalid_key_msg_ne (k : String) :
    ("Invalid key \x27" ++ k ++ "\x27 in umap_params") ≠
      "umap_combine_method must be valid selection" := by
  intro h
  have hd := congrArg String.data h
  rw [String.data_append] at hd
  have h2 := congrArg List.getLast? hd
  rw [List.getLast?_append_of_ne_nil _ (by decide)] at h2
  exact absurd h2 (by decide)

/-- The configuration-merging loop never raises the invalid-strategy
ValueError: its only error is the invalid-key message. -/
theorem mergeLoop_ne_strategy (up : List (String × Dict)) :
    ∀ acc, mergeLoop acc up ≠
      .error (.valueError "umap_combine_method must be valid selection") := by
  induction up with
  | nil => intro acc h; simp [mergeLoop] at h
  | cons p rest ih =>
    intro acc
    obtain ⟨k, v⟩ := p
    simp only [mergeLoop]
    split
    · exact ih _
    · intro h
      simp only [Except.error.injEq, PyError.valueError.injEq] at h
      exact invalid_key_msg_ne k h

/-! ### Claims -/

/-- C5: constructing with a combine-method string outside
{intersection, union, contrast, intersection_union_mapper} raises the
InvalidStrategy condition (the ValueError with the strategy message)
before any fitting occurs, and for every string inside the set the
constructor never raises that condition. -/
theorem init_strategy_validation (g : Globals) (rs : Option Int) (vb : Bool)
    (up : Option (List (String × Dict))) (hp : Option Dict) (kw : Dict)
    (m : String) :
    (m ∉ (["intersection", "union", "contrast", "intersection_union_mapper"] : List String) →
      DenseClus.init g rs m vb up hp kw =
        .error (.valueError "umap_combine_method must be valid selection")) ∧
    (m ∈ (["intersection", "union", "contrast", "intersection_union_mapper"] : List String) →
      DenseClus.init g rs m vb up hp kw ≠
        .error (.valueError "umap_combine_method must be valid selection")) := by
  constructor
  · intro hm
    simp [DenseClus.init, hm]
  · intro hm hcontra
    simp only [DenseClus.init, if_pos hm] at hcontra
    cases up with
    | none =>
      simp at hcontra
    | some up' =>
      by_cases hup : up' = []
      · subst hup; simp at hcontra
      · simp only [ne_eq, hup, not_false_iff, if_true] at hcontra
        cases hml : mergeLoop default_umap_params up' with
        | error e =>
          rw [hml] at hcontra
          simp only [Except.error.injEq] at hcontra
          exact mergeLoop_ne_strategy up' default_umap_params (by rw [hml, hcontra])
        | ok merged =>
          rw [hml] at hcontra
          simp at hcontra

/-- Witness for C5 at concrete inputs. -/
theorem init_strategy_validation_witness :
    DenseClus.init g0 (some 42) "bogus" false none none [] =
      .error (.valueError "umap_combine_method must be valid selection") ∧
    DenseClus.init g0 (some 42) "union" false none none [] ≠
      .error (.valueError "umap_combine_method must be valid selection") :=
  ⟨(init_strategy_validation g0 (some 42) false none none [] "bogus").1 (by decide),
   (init_strategy_validation g0 (some 42) false none none [] "union").2 (by decide)⟩

/-- C7: a non-DataFrame argument makes `fit` raise the TypeError from
its isinstance check, leaving the instance unmutated and logging
nothing, and makes `predict`/`predict_proba` raise the TypeError-class
condition of the Feature Splitter. -/
theorem fit_predict_type_error (env : Env) (st : DenseClus) (s : String) :
    DenseClus.fit env st (.nonDf s) =
      (.error (.typeError "Requires DataFrame as input"), st, []) ∧
    DenseClus.predict env st (.nonDf s) =
      (.error (.typeError ("df must be a pandas DataFrame: " ++ s)), []) ∧
    DenseClus.predict_proba env st (.nonDf s) =
      (.error (.typeError ("df must be a pandas DataFrame: " ++ s)), []) :=
  ⟨rfl, rfl, rfl⟩

/-- C10: with the verbosity flag unset, a successful construction
replaces the process-global `warnings.warn` with a no-op and sets the
module logger to ERROR, and when an integer seed is supplied it also
seeds the process-global numpy random generator (when no seed is
supplied the global generator is untouched). -/
theorem init_global_side_effects (g : Globals) (rs : Option Int) (m : String)
    (up : Option (List (String × Dict))) (hp : Option Dict) (kw : Dict)
    (st : DenseClus) (g2 : Globals)
    (h : DenseClus.init g rs m false up hp kw = .ok (st, g2)) :
    g2.warningsWarn = .noop ∧ g2.loggerLevel = .error ∧
    (∀ n : Int, rs = some n → g2.npSeed = some n) ∧
    (rs = none → g2.npSeed = g.npSeed) := by
  simp only [DenseClus.init] at h
  split at h
  · split at h
    · exact absurd h (by simp)
    · cases rs with
      | none =>
        simp only [Except.ok.injEq, Prod.mk.injEq] at h
        obtain ⟨-, hg⟩ := h
        subst hg
        refine ⟨rfl, rfl, ?_, fun _ => rfl⟩
        intro n hn; cases hn
      | some k =>
        simp only [Except.ok.injEq, Prod.mk.injEq] at h
        obtain ⟨-, hg⟩ := h
        subst hg
        refine ⟨rfl, rfl, ?_, ?_⟩
        · intro n hn
          injection hn with hn
          subst hn
          rfl
        · intro hn; cases hn
  · exact absurd h (by simp)

/-- Witness for C10 at concrete inputs. -/
theorem init_global_side_effects_witness :
    ∃ st g2, DenseClus.init g0 (some 7) "union" false none none [] = .ok (st, g2) ∧
      g2.warningsWarn = .noop ∧ g2.loggerLevel = .error ∧ g2.npSeed = some 7 := by
  refine ⟨_, _, rfl, ?_⟩
  have h := init_global_side_effects g0 (some 7) "union" none none [] _ _ rfl
  exact ⟨h.1, h.2.1, h.2.2.1 7 rfl⟩

/-- C1: on a fitted instance, `predict` and `predict_proba` combine
the transformed numerical coordinates `A2 = transform nu (extractNum d)`
and categorical coordinates `B2 = transform cu (extractCat d)` with the
strategy fixed at construction: elementwise product for intersection,
elementwise sum for union, elementwise difference for contrast; for
intersection_union_mapper a fresh auxiliary UMAP is fit on `A2` on
every call and composed (intersect) with `A2 + B2`; the result is fed
to the approximate out-of-sample assignment of the cluster model. -/
theorem predict_combines_by_strategy (env : Env) (st : DenseClus) (d : DataFrame)
    (cu nu : MVal) (h : HDBSCANModel)
    (hcu : st.categorical_umap_ = some cu) (hnu : st.numerical_umap_ = some nu)
    (hh : st.hdbscan_ = some h) :
    (st.umap_combine_method = "intersection" →
      st.predict env (.df d) =
        (.ok (.approxLabels h.params h.trainData
          (.emul (.transform nu (.extractNum d)) (.transform cu (.extractCat d)))), []) ∧
      st.predict_proba env (.df d) =
        (.ok (.approxStrengths h.params h.trainData
          (.emul (.transform nu (.extractNum d)) (.transform cu (.extractCat d)))), [])) ∧
    (st.umap_combine_method = "union" →
      st.predict env (.df d) =
        (.ok (.approxLabels h.params h.trainData
          (.eadd (.transform nu (.extractNum d)) (.transform cu (.extractCat d)))), []) ∧
      st.predict_proba env (.df d) =
        (.ok (.approxStrengths h.params h.trainData
          (.eadd (.transform nu (.extractNum d)) (.transform cu (.extractCat d)))), [])) ∧
    (st.umap_combine_method = "contrast" →
      st.predict env (.df d) =
        (.ok (.approxLabels h.params h.trainData
          (.esub (.transform nu (.extractNum d)) (.transform cu (.extractCat d)))), []) ∧
      st.predict_proba env (.df d) =
        (.ok (.approxStrengths h.params h.trainData
          (.esub (.transform nu (.extractNum d)) (.transform cu (.extractCat d)))), [])) ∧
    (∀ grp fullp aux,
      st.umap_combine_method = "intersection_union_mapper" →
      subscriptGroup st.umap_params "combined" = .ok grp →
      kwargsExpand [("random_state", rsValue st.random_state),
                    ("n_jobs", nJobsValue st.random_state)] grp = .ok fullp →
      umapFit env fullp (.transform nu (.extractNum d)) = .ok aux →
      st.predict env (.df d) =
        (.ok (.approxLabels h.params h.trainData
          (.mintersect aux
            (.eadd (.transform nu (.extractNum d)) (.transform cu (.extractCat d))))),
         [(.info, "Refitting new UMAP for Intersection Mapper")]) ∧
      st.predict_proba env (.df d) =
        (.ok (.approxStrengths h.params h.trainData
          (.mintersect aux
            (.eadd (.transform nu (.extractNum d)) (.transform cu (.extractCat d))))),
         [(.info, "Refitting new UMAP for Intersection Mapper")])) := by
  refine ⟨?_, ?_, ?_, ?_⟩
  · intro hm
    constructor <;>
      simp [DenseClus.predict, DenseClus.predict_proba, DenseClus._predict_base,
        extract_categorical, extract_numerical, hcu, hnu, hh, hm, approximate_predict]
  · intro hm
    constructor <;>
      simp [DenseClus.predict, DenseClus.predict_proba, DenseClus._predict_base,
        extract_categorical, extract_numerical, hcu, hnu, hh, hm, approximate_predict]
  · intro hm
    constructor <;>
      simp [DenseClus.predict, DenseClus.predict_proba, DenseClus._predict_base,
        extract_categorical, extract_numerical, hcu, hnu, hh, hm, approximate_predict]
  · intro grp fullp aux hm hgrp hexp hfit
    constructor <;>
      simp [DenseClus.predict, DenseClus.predict_proba, DenseClus._predict_base,
        extract_categorical, extract_numerical, hcu, hnu, hh, hm, hgrp, hexp, hfit,
        approximate_predict]

/-- Witness for C1: the intersection strategy on a concretely fitted
instance, elementwise product of the transformed coordinates. -/
theorem predict_combines_by_strategy_witness :
    (fitted "intersection").predict env0 (.df df0) =
      (.ok (.approxLabels hdb0.params hdb0.trainData
        (.emul (.transform numM0 (.extractNum df0))
          (.transform catM0 (.extractCat df0)))), []) :=
  ((predict_combines_by_strategy env0 (fitted "intersection") df0 catM0 numM0 hdb0
      rfl rfl rfl).1 rfl).1

/-- C2 counterexample: in the concrete seeded
intersection_union_mapper fit of `df0`, the auxiliary model is fit on
the raw numerical matrix `extractNum df0` (the content of
`self.numerical_`), which is neither the fitted numerical embedding
model nor its positioned coordinate output, contrary to the claim
that the auxiliary model is fit on the numerical embedding. -/
theorem fit_hybrid_aux_train_cex :
    (fitted "intersection_union_mapper").mapper_ =
      some (.mintersect auxM0 (.munion numM0 catM0)) ∧
    auxM0 = .umapFitted
      [("random_state", .int 42), ("n_jobs", .int 1),
       ("n_neighbors", .int 30), ("min_dist", .float 0), ("n_components", .int 5)]
      (.extractNum df0) 0 ∧
    MVal.extractNum df0 ≠ numM0 ∧
    MVal.extractNum df0 ≠ .embedding numM0 := by
  refine ⟨by decide, rfl, by decide, by decide⟩

/-- C2 amended: during fit under intersection_union_mapper, the
auxiliary model C is fit on the raw numerical feature matrix
`self.numerical_` (the Feature Splitter output the numerical
embedding model itself was fit on), not on the numerical embedding;
the fused result is `C` intersect-composed with the union of the
numerical and categorical embedding models. -/
theorem fit_hybrid_aux_trains_on_raw_numerical (env : Env) (st : DenseClus)
    (numdata cu nu aux : MVal) (grp fullp : Dict)
    (hm : st.umap_combine_method = "intersection_union_mapper")
    (hnd : st.numerical_ = some numdata)
    (hnu : st.numerical_umap_ = some nu) (hcu : st.categorical_umap_ = some cu)
    (hgrp : subscriptGroup st.umap_params "combined" = .ok grp)
    (hexp : kwargsExpand [("random_state", rsValue st.random_state),
        ("n_jobs", nJobsValue st.random_state)] grp = .ok fullp)
    (hfit : umapFit env fullp numdata = .ok aux) :
    st._umap_embeddings env =
      (.ok (), { st with mapper_ := some (.mintersect aux (.munion nu cu)) },
       [(.info, "Combining UMAP embeddings using method: " ++ st.umap_combine_method)]) := by
  simp [DenseClus._umap_embeddings, hm, hnd, hnu, hcu, hgrp, hexp, hfit]

/-- Witness for the amended C2 at the concrete hybrid fit. -/
theorem fit_hybrid_aux_trains_on_raw_numerical_witness :
    (fitted "intersection_union_mapper")._umap_embeddings env0 =
      (.ok (),
       { fitted "intersection_union_mapper" with
           mapper_ := some (.mintersect auxM0 (.munion numM0 catM0)) },
       [(.info, "Combining UMAP embeddings using method: " ++
          (fitted "intersection_union_mapper").umap_combine_method)]) :=
  fit_hybrid_aux_trains_on_raw_numerical env0 (fitted "intersection_union_mapper")
    (.extractNum df0) catM0 numM0 auxM0
    [("n_neighbors", .int 30), ("min_dist", .float 0), ("n_components", .int 5)]
    [("random_state", .int 42), ("n_jobs", .int 1),
     ("n_neighbors", .int 30), ("min_dist", .float 0), ("n_components", .int 5)]
    rfl rfl rfl rfl rfl rfl rfl

/-- On an instance whose cluster model was never assigned,
`_predict_base` always ends in an exception: every path either fails
earlier (input type, missing embedding attribute, collaborator
failure) or reaches the `self.hdbscan_` access, which raises
AttributeError. -/
theorem predict_base_err_of_unclustered (env : Env) (st : DenseClus) (df : PyObj)
    (hh : st.hdbscan_ = none) :
    isExcErr (st._predict_base env df).1 = true := by
  simp only [DenseClus._predict_base]
  repeat' split
  all_goals simp_all [isExcErr, extract_categorical, extract_numerical]

/-- C3 counterexample: on a freshly constructed (never fitted)
instance, `predict` raises a plain AttributeError for the missing
`categorical_umap_` attribute and `score` one for `hdbscan_`; neither
raises the sklearn NotFittedError the claim names. -/
theorem predict_unfit_not_notfitted_cex :
    (initOr "intersection").predict env0 (.df df0) =
      (.error (.attributeError "categorical_umap_"), []) ∧
    isNotFittedErr ((initOr "intersection").predict env0 (.df df0)).1 = false ∧
    (initOr "intersection").score = .error (.attributeError "hdbscan_") ∧
    isNotFittedErr (initOr "intersection").score = false := by
  refine ⟨by decide, by decide, by decide, by decide⟩

/-- C3 amended: on every instance on which no fit has completed (the
cluster model attribute is unset), `predict`, `predict_proba` and
`score` all fail — but with a plain AttributeError for the first
missing fit-produced attribute (or an earlier input error), not with
the sklearn NotFittedError. -/
theorem unfit_calls_fail (env : Env) (st : DenseClus) (df : PyObj)
    (hh : st.hdbscan_ = none) :
    isExcErr (st.predict env df).1 = true ∧
    isExcErr (st.predict_proba env df).1 = true ∧
    isExcErr st.score = true := by
  have hb := predict_base_err_of_unclustered env st df hh
  refine ⟨?_, ?_, by simp [DenseClus.score, hh, isExcErr]⟩
  · rcases hpb : st._predict_base env df with ⟨r, l⟩
    rw [hpb] at hb
    cases r with
    | error e => simp [DenseClus.predict, hpb, isExcErr]
    | ok p => simp [isExcErr] at hb
  · rcases hpb : st._predict_base env df with ⟨r, l⟩
    rw [hpb] at hb
    cases r with
    | error e => simp [DenseClus.predict_proba, hpb, isExcErr]
    | ok p => simp [isExcErr] at hb

/-- Witness for the amended C3 on a fresh concrete instance. -/
theorem unfit_calls_fail_witness :
    isExcErr ((initOr "union").predict env0 (.df df0)).1 = true ∧
    isExcErr ((initOr "union").predict_proba env0 (.df df0)).1 = true ∧
    isExcErr (initOr "union").score = true :=
  unfit_calls_fail env0 (initOr "union") (.df df0) rfl

/-- C4 evaluation: when the Manifold Learner raises during step 2
(the categorical UMAP fit), fit re-raises the exception unchanged but
the error-level log entry reads "Failed to fit numerical UMAP", naming
the wrong step; and when the Cluster Engine raises during step 5, fit
re-raises the exception unchanged with no error-level log entry at
all. -/
theorem fit_error_logging_eval :
    (DenseClus.fit envCatFail (initOr "intersection") (.df df0)).1 =
      .error (.valueError "boom") ∧
    ((LogLevel.error, "Failed to fit numerical UMAP: boom") ∈
      (DenseClus.fit envCatFail (initOr "intersection") (.df df0)).2.2) ∧
    ((DenseClus.fit envCatFail (initOr "intersection") (.df df0)).2.2.filter
      (fun p => decide (p.1 = LogLevel.error))) =
      [(LogLevel.error, "Failed to fit numerical UMAP: boom")] ∧
    (DenseClus.fit envHdbFail (initOr "intersection") (.df df0)).1 =
      .error (.valueError "hboom") ∧
    ((DenseClus.fit envHdbFail (initOr "intersection") (.df df0)).2.2.filter
      (fun p => decide (p.1 = LogLevel.error))) = [] := by
  refine ⟨by decide, by decide, by decide, by decide, by decide⟩

/-- C9 counterexample: with the user clustering-parameter mapping
`{prediction_data: False}`, fit reaches the cluster step and the
delegated call raises a duplicate-keyword TypeError instead of
enabling prediction data; no cluster model is produced. -/
theorem prediction_data_duplicate_cex :
    (DenseClus.fit env0 (initWithHdb [("prediction_data", .bool false)]) (.df df0)).1 =
      .error (.typeError "got multiple values for keyword argument prediction_data") ∧
    (DenseClus.fit env0 (initWithHdb [("prediction_data", .bool false)])
      (.df df0)).2.1.hdbscan_ = none := by
  refine ⟨by decide, by decide⟩

/-- C9 amended: a non-empty user clustering-parameter mapping replaces
the whole default clustering group instead of being merged over it
(the defaults being min_cluster_size 100, min_samples 15, minimum
spanning tree, euclidean metric, used when no mapping is given), and
the cluster fit passes `prediction_data=True` ahead of the stored
parameters whenever the user mapping does not itself contain a
prediction_data key (if it does, the delegated call fails with a
duplicate-keyword TypeError, see the counterexample). -/
theorem hdbscan_params_replacement :
    (∀ (g : Globals) (rs : Option Int) (vb : Bool)
        (up : Option (List (String × Dict))) (kw : Dict) (hp : Dict) (m : String)
        (st : DenseClus) (g2 : Globals),
      hp ≠ [] →
      DenseClus.init g rs m vb up (some hp) kw = .ok (st, g2) →
      st.hdbscan_params = hp) ∧
    (∀ (g : Globals) (rs : Option Int) (vb : Bool)
        (up : Option (List (String × Dict))) (kw : Dict) (m : String)
        (st : DenseClus) (g2 : Globals),
      DenseClus.init g rs m vb up none kw = .ok (st, g2) →
      st.hdbscan_params = default_hdbscan_params) ∧
    (default_hdbscan_params =
      [("min_cluster_size", .int 100), ("min_samples", .int 15),
       ("gen_min_span_tree", .bool true), ("metric", .str "euclidean")]) ∧
    (∀ (env : Env) (st : DenseClus) (mp : MVal) (h2 : HDBSCANModel),
      st.hdbscan_params.any (fun q => decide (q.1 = "prediction_data")) = false →
      st.mapper_ = some mp →
      hdbscanFit env (("prediction_data", .bool true) :: st.hdbscan_params)
        (.embedding mp) = .ok h2 →
      st._fit_hdbscan env =
        (.ok (), { st with hdbscan_ := some h2 },
         [(.info, "Fitting HDBSCAN with default parameters"), (.info, "HDBSCAN fit")])) := by
  refine ⟨?_, ?_, rfl, ?_⟩
  · intro g rs vb up kw hp m st g2 hne h
    simp only [DenseClus.init] at h
    split at h
    · split at h
      · exact absurd h (by simp)
      · simp only [ne_eq, hne, Except.ok.injEq, Prod.mk.injEq, not_false_iff,
          if_true] at h
        obtain ⟨hst, -⟩ := h
        subst hst
        rfl
    · exact absurd h (by simp)
  · intro g rs vb up kw m st g2 h
    simp only [DenseClus.init] at h
    split at h
    · split at h
      · exact absurd h (by simp)
      · simp only [Except.ok.injEq, Prod.mk.injEq] at h
        obtain ⟨hst, -⟩ := h
        subst hst
        rfl
    · exact absurd h (by simp)
  · intro env st mp h2 hany hmp hfit
    have hexp : kwargsExpand [("prediction_data", .bool true)] st.hdbscan_params =
        .ok (("prediction_data", .bool true) :: st.hdbscan_params) := by
      simp [kwargsExpand, List.find?, hany]
    simp [DenseClus._fit_hdbscan, hexp, hmp, hfit]

/-- Witness for the amended C9 at concrete inputs. -/
theorem hdbscan_params_replacement_witness :
    (initWithHdb [("min_cluster_size", .int 5)]).hdbscan_params =
      [("min_cluster_size", .int 5)] ∧
    (initOr "union").hdbscan_params = default_hdbscan_params ∧
    (fitted "intersection")._fit_hdbscan env0 =
      (.ok (), { fitted "intersection" with hdbscan_ := some hdb0 },
       [(.info, "Fitting HDBSCAN with default parameters"), (.info, "HDBSCAN fit")]) :=
  ⟨hdbscan_params_replacement.1 g0 (some 42) false none [] [("min_cluster_size", .int 5)]
      "intersection" (initWithHdb [("min_cluster_size", .int 5)]) _ (by decide) rfl,
   hdbscan_params_replacement.2.1 g0 (some 42) false none [] "union"
      (initOr "union") _ rfl,
   hdbscan_params_replacement.2.2.2 env0 (fitted "intersection")
      (.mintersect numM0 catM0) hdb0 (by decide) rfl rfl⟩

/-- Association-list lookup at the head key. -/
theorem lookup_cons_self {β : Type} (g : String) (d : β) (t : List (String × β)) :
    List.lookup g ((g, d) :: t) = some d := by
  simp [List.lookup]

/-- Association-list lookup skipping a head with a different key. -/
theorem lookup_cons_ne {β : Type} {g pk : String} (hg : g ≠ pk) (d : β)
    (t : List (String × β)) :
    List.lookup g ((pk, d) :: t) = List.lookup g t := by
  simp [List.lookup, show (g == pk) = false by simpa using hg]

/-- Unfolding `updateGroup` on a cons cell. -/
theorem updateGroup_cons (pk : String) (pd : Dict) (rest : List (String × Dict))
    (k : String) (v : Dict) :
    updateGroup ((pk, pd) :: rest) k v =
      (if pk = k then (pk, dictUpdate pd v) else (pk, pd)) :: updateGroup rest k v := by
  simp only [updateGroup, List.map_cons]

/-- Lookup after an in-place group update: the updated group is the
shallow merge, every other group is untouched. -/
theorem updateGroup_lookup (acc : List (String × Dict)) (k : String) (v : Dict)
    (g : String) :
    (updateGroup acc k v).lookup g =
      if g = k then (acc.lookup k).map (fun d => dictUpdate d v)
      else acc.lookup g := by
  induction acc with
  | nil => simp [updateGroup, List.lookup]
  | cons p rest ih =>
    obtain ⟨pk, pd⟩ := p
    rw [updateGroup_cons]
    by_cases hpk : pk = k
    · subst hpk
      rw [if_pos rfl]
      by_cases hg : g = pk
      · subst hg
        rw [lookup_cons_self, lookup_cons_self, if_pos rfl, Option.map_some']
      · rw [lookup_cons_ne hg, lookup_cons_ne hg, ih, if_neg hg, if_neg hg]
    · rw [if_neg hpk]
      by_cases hg : g = pk
      · subst hg
        rw [lookup_cons_self, lookup_cons_self, if_neg hpk]
      · rw [lookup_cons_ne hg, lookup_cons_ne hg, ih]
        by_cases hgk : g = k
        · subst hgk
          rw [if_pos rfl, if_pos rfl, lookup_cons_ne (Ne.symm hpk)]
        · rw [if_neg hgk, if_neg hgk]

/-- A key absent from the key column of an association list looks up
to nothing. -/
theorem lookup_eq_none_of_not_mem {β : Type} (k : String) (l : List (String × β))
    (h : k ∉ l.map Prod.fst) : l.lookup k = none := by
  induction l with
  | nil => rfl
  | cons q t ih =>
    obtain ⟨qk, qd⟩ := q
    have h1 : k ≠ qk := by
      intro hc
      exact h (by simp [hc])
    rw [lookup_cons_ne h1]
    refine ih ?_
    intro hc
    simp only [List.map_cons, List.mem_cons] at h
    exact h (.inr hc)

/-- When every user group name is present in the accumulator and the
user names are distinct, the merging loop succeeds and each group of
the result is the shallow merge of the accumulator group with the
user group (untouched when the user did not mention it). -/
theorem mergeLoop_ok_lookup (up : List (String × Dict)) :
    ∀ acc : List (String × Dict),
      (∀ p ∈ up, (acc.lookup p.1).isSome = true) →
      (up.map Prod.fst).Nodup →
      ∃ res, mergeLoop acc up = .ok res ∧
        ∀ g : String, res.lookup g =
          match up.lookup g with
          | some d => (acc.lookup g).map (fun dd => dictUpdate dd d)
          | none => acc.lookup g := by
  induction up with
  | nil =>
    intro acc _ _
    exact ⟨acc, rfl, fun g => by simp [List.lookup]⟩
  | cons p rest ih =>
    obtain ⟨k, v⟩ := p
    intro acc hall hnd
    have hk : (acc.lookup k).isSome = true := hall (k, v) (by simp)
    obtain ⟨dk, hdk⟩ := Option.isSome_iff_exists.mp hk
    have step : mergeLoop acc ((k, v) :: rest) = mergeLoop (updateGroup acc k v) rest := by
      simp [mergeLoop, hk]
    have hall' : ∀ p ∈ rest, ((updateGroup acc k v).lookup p.1).isSome = true := by
      intro p hp
      rw [updateGroup_lookup]
      split
      · rw [hdk]; rfl
      · exact hall p (List.mem_cons_of_mem _ hp)
    have hnd2 : (k :: rest.map Prod.fst).Nodup := by
      simpa only [List.map_cons] using hnd
    obtain ⟨hknotin, hnd'⟩ := List.nodup_cons.mp hnd2
    obtain ⟨res, hres, hspec⟩ := ih (updateGroup acc k v) hall' hnd'
    refine ⟨res, by rw [step, hres], ?_⟩
    intro g
    rw [hspec g, updateGroup_lookup]
    by_cases hgk : g = k
    · subst hgk
      have hrest : rest.lookup g = none :=
        lookup_eq_none_of_not_mem g rest hknotin
      rw [hrest, lookup_cons_self, if_pos rfl, hdk]
    · rw [lookup_cons_ne hgk, if_neg hgk]

/-- When some user group name is absent from the accumulator, the
merging loop raises the invalid-key ValueError for the first such
name (a name absent from the accumulator). -/
theorem mergeLoop_invalid_key (up : List (String × Dict)) :
    ∀ acc : List (String × Dict),
      (∃ p ∈ up, (acc.lookup p.1).isSome = false) →
      ∃ k', (acc.lookup k').isSome = false ∧
        mergeLoop acc up =
          .error (.valueError ("Invalid key \x27" ++ k' ++ "\x27 in umap_params")) := by
  induction up with
  | nil =>
    intro acc h
    obtain ⟨p, hp, -⟩ := h
    exact absurd hp (List.not_mem_nil p)
  | cons p rest ih =>
    obtain ⟨k, v⟩ := p
    intro acc h
    obtain ⟨q, hq, hqn⟩ := h
    by_cases hk : (acc.lookup k).isSome = true
    · have step : mergeLoop acc ((k, v) :: rest) =
          mergeLoop (updateGroup acc k v) rest := by
        simp [mergeLoop, hk]
      have hqrest : q ∈ rest := by
        rcases List.mem_cons.mp hq with h1 | h1
        · rw [h1] at hqn
          rw [hqn] at hk
          cases hk
        · exact h1
      have hq' : ((updateGroup acc k v).lookup q.1).isSome = false := by
        rw [updateGroup_lookup]
        split
        · rename_i hq1k
          rw [hq1k] at hqn
          rw [hqn] at hk
          cases hk
        · exact hqn
      obtain ⟨k', hk1, hk2⟩ := ih (updateGroup acc k v) ⟨q, hqrest, hq'⟩
      have hk1' : (acc.lookup k').isSome = false := by
        rw [updateGroup_lookup] at hk1
        revert hk1
        split
        · rename_i hgk
          subst hgk
          cases hdk : acc.lookup k' <;> simp [hdk]
        · exact id
      exact ⟨k', hk1', by rw [step]; exact hk2⟩
    · have hkf : (acc.lookup k).isSome = false := by
        cases hv : (acc.lookup k).isSome
        · rfl
        · exact absurd hv hk
      refine ⟨k, hkf, ?_⟩
      simp [mergeLoop, hkf]

/-- The default configuration has exactly the three recognized group
names as lookup keys. -/
theorem default_umap_keys (k : String) :
    (default_umap_params.lookup k).isSome = true ↔
      k ∈ (["categorical", "numerical", "combined"] : List String) := by
  simp only [default_umap_params]
  by_cases h1 : k = "categorical"
  · subst h1
    rw [lookup_cons_self]
    simp
  · rw [lookup_cons_ne h1]
    by_cases h2 : k = "numerical"
    · subst h2
      rw [lookup_cons_self]
      simp
    · rw [lookup_cons_ne h2]
      by_cases h3 : k = "combined"
      · subst h3
        rw [lookup_cons_self]
        simp
      · rw [lookup_cons_ne h3]
        simp [List.lookup, h1, h2, h3]

/-- C6: with a valid combine method, a user `umap_params` mapping that
mentions a group name outside {categorical, numerical, combined}
makes construction raise the InvalidConfigKey condition (the
invalid-key ValueError, naming an unrecognized key) before fit is
ever involved; and a mapping whose names are all recognized (and
distinct, as Python dict keys are) is accepted, with every recognized
group shallow-merged over its default group rather than replacing
it, and the untouched groups left at their defaults. -/
theorem init_umap_params_validation (g : Globals) (rs : Option Int) (vb : Bool)
    (hp : Option Dict) (kw : Dict) (m : String) (up : List (String × Dict))
    (hm : m ∈ (["intersection", "union", "contrast", "intersection_union_mapper"] : List String)) :
    ((∃ p ∈ up, p.1 ∉ (["categorical", "numerical", "combined"] : List String)) →
      ∃ k', k' ∉ (["categorical", "numerical", "combined"] : List String) ∧
        DenseClus.init g rs m vb (some up) hp kw =
          .error (.valueError ("Invalid key \x27" ++ k' ++ "\x27 in umap_params"))) ∧
    ((∀ p ∈ up, p.1 ∈ (["categorical", "numerical", "combined"] : List String)) →
      (up.map Prod.fst).Nodup →
      ∃ st g2, DenseClus.init g rs m vb (some up) hp kw = .ok (st, g2) ∧
        ∀ gname : String, st.umap_params.lookup gname =
          match up.lookup gname with
          | some d => (default_umap_params.lookup gname).map (fun dd => dictUpdate dd d)
          | none => default_umap_params.lookup gname) := by
  constructor
  · intro h
    obtain ⟨p, hp', hpn⟩ := h
    have hnone : (default_umap_params.lookup p.1).isSome = false := by
      cases hv : (default_umap_params.lookup p.1).isSome
      · rfl
      · exact absurd ((default_umap_keys p.1).mp hv) hpn
    obtain ⟨k', hk1, hk2⟩ := mergeLoop_invalid_key up default_umap_params ⟨p, hp', hnone⟩
    have hne : up ≠ [] := by
      intro hcontra
      subst hcontra
      exact absurd hp' (List.not_mem_nil p)
    refine ⟨k', ?_, ?_⟩
    · intro hmem
      rw [(default_umap_keys k').mpr hmem] at hk1
      cases hk1
    · simp only [DenseClus.init, if_pos hm, ne_eq, hne, not_false_iff, if_true, hk2]
  · intro hall hnd
    have hall' : ∀ p ∈ up, (default_umap_params.lookup p.1).isSome = true :=
      fun p hp' => (default_umap_keys p.1).mpr (hall p hp')
    by_cases hne : up = []
    · subst hne
      obtain ⟨st, g2, hinit, hup⟩ :
          ∃ st g2, DenseClus.init g rs m vb (some []) hp kw = .ok (st, g2) ∧
            st.umap_params = default_umap_params := by
        unfold DenseClus.init
        rw [if_pos hm]
        exact ⟨_, _, rfl, rfl⟩
      refine ⟨st, g2, hinit, ?_⟩
      intro gname
      rw [hup]
      simp [List.lookup]
    · obtain ⟨res, hres, hspec⟩ := mergeLoop_ok_lookup up default_umap_params hall' hnd
      obtain ⟨st, g2, hinit, hup⟩ :
          ∃ st g2, DenseClus.init g rs m vb (some up) hp kw = .ok (st, g2) ∧
            st.umap_params = res := by
        unfold DenseClus.init
        rw [if_pos hm]
        simp only [ne_eq, hne, not_false_iff, if_true, hres]
        exact ⟨_, _, rfl, rfl⟩
      refine ⟨st, g2, hinit, ?_⟩
      intro gname
      rw [hup]
      exact hspec gname

/-- Witness for C6 at concrete inputs. -/
theorem init_umap_params_validation_witness :
    (∃ k', k' ∉ (["categorical", "numerical", "combined"] : List String) ∧
      DenseClus.init g0 (some 42) "union" false (some [("bogus", [])]) none [] =
        .error (.valueError ("Invalid key \x27" ++ k' ++ "\x27 in umap_params"))) ∧
    (∃ st g2, DenseClus.init g0 (some 42) "union" false
        (some [("numerical", [("n_neighbors", Value.int 12)])]) none [] = .ok (st, g2) ∧
      ∀ gname : String, st.umap_params.lookup gname =
        match List.lookup gname [("numerical", [("n_neighbors", Value.int 12)])] with
        | some d => (default_umap_params.lookup gname).map (fun dd => dictUpdate dd d)
        | none => default_umap_params.lookup gname) :=
  ⟨(init_umap_params_validation g0 (some 42) false none [] "union" [("bogus", [])]
      (by decide)).1 ⟨("bogus", []), by decide, by decide⟩,
   (init_umap_params_validation g0 (some 42) false none [] "union"
      [("numerical", [("n_neighbors", Value.int 12)])] (by decide)).2
      (by decide) (by decide)⟩

/-- C8 counterexample: in a concrete fit constructed with the fixed
seed 42, the delegated cluster-engine fit call receives only
`prediction_data` plus the stored clustering parameters — no
`n_jobs`, `core_dist_n_jobs` or `random_state` forcing — so not every
delegated fit call is forced into single-threaded, seeded mode. -/
theorem hdbscan_fit_unforced_mode_cex :
    (fitted "intersection").hdbscan_ = some hdb0 ∧
    hdb0.params =
      [("prediction_data", .bool true), ("min_cluster_size", .int 100),
       ("min_samples", .int 15), ("gen_min_span_tree", .bool true),
       ("metric", .str "euclidean")] ∧
    hdb0.params.all (fun p =>
      decide (p.1 ≠ "n_jobs") && decide (p.1 ≠ "core_dist_n_jobs") &&
      decide (p.1 ≠ "random_state")) = true := by
  refine ⟨by decide, by decide, by decide⟩

/-- A keyword expansion whose explicit part pins an integer
`random_state` and `n_jobs = 1` yields single-threaded seeded
parameters. -/
theorem seededSingle_expand (n : Int) (rest grp fullp : Dict)
    (h : kwargsExpand (("random_state", .int n) :: ("n_jobs", .int 1) :: rest) grp =
      .ok fullp) :
    seededSingle fullp = true := by
  unfold kwargsExpand at h
  rcases hf : List.find?
      (fun p => grp.any (fun q => decide (q.1 = p.1)))
      (("random_state", Value.int n) :: ("n_jobs", Value.int 1) :: rest) with _ | p
  · rw [hf] at h
    injection h with h
    subst h
    have h1 : List.lookup "random_state"
        (("random_state", Value.int n) :: ("n_jobs", Value.int 1) :: (rest ++ grp)) =
        some (.int n) := lookup_cons_self _ _ _
    have h2 : List.lookup "n_jobs"
        (("random_state", Value.int n) :: ("n_jobs", Value.int 1) :: (rest ++ grp)) =
        some (.int 1) := by
      rw [lookup_cons_ne (by decide), lookup_cons_self]
    simp [seededSingle, List.cons_append, h1, h2]
  · rw [hf] at h
    cases h

/-- A seeded single-threaded Manifold Learner fit ignores the
scheduling oracle. -/
theorem umapFit_oracle (e : Env) (o1 o2 : Nat) (p : Dict) (t : MVal)
    (h : seededSingle p = true) :
    umapFit { e with oracle := o1 } p t = umapFit { e with oracle := o2 } p t := by
  simp [umapFit, h]

/-- The categorical fitting step does not change `random_state`. -/
theorem _fit_categorical_rs (env : Env) (st : DenseClus) :
    (st._fit_categorical env).2.1.random_state = st.random_state := by
  unfold DenseClus._fit_categorical
  dsimp only
  repeat' split
  all_goals rfl

/-- The numerical fitting step does not change `random_state`. -/
theorem _fit_numerical_rs (env : Env) (st : DenseClus) :
    (st._fit_numerical env).2.1.random_state = st.random_state := by
  unfold DenseClus._fit_numerical
  dsimp only
  repeat' split
  all_goals rfl

/-- The fusing step does not change `random_state`. -/
theorem _umap_embeddings_rs (env : Env) (st : DenseClus) :
    (st._umap_embeddings env).2.1.random_state = st.random_state := by
  unfold DenseClus._umap_embeddings
  dsimp only
  repeat' split
  all_goals rfl

/-- With an integer seed stored, the categorical fitting step is
independent of the scheduling oracle. -/
theorem _fit_categorical_det (e : Env) (o1 o2 : Nat) (st : DenseClus) (n : Int)
    (hrs : st.random_state = some n) :
    st._fit_categorical { e with oracle := o1 } =
      st._fit_categorical { e with oracle := o2 } := by
  unfold DenseClus._fit_categorical
  rw [hrs]
  simp only [rsValue, nJobsValue]
  cases hg : subscriptGroup st.umap_params "categorical" with
  | error e' => simp [hg]
  | ok grp =>
    simp only [hg]
    cases he : kwargsExpand
        [("random_state", .int n), ("n_jobs", .int 1), ("verbose", .bool false)] grp with
    | error e' => simp [he]
    | ok fullp =>
      simp only [he]
      cases hc : st.categorical_ with
      | none => simp [hc]
      | some cat =>
        simp only [hc]
        rw [umapFit_oracle e o1 o2 fullp cat (seededSingle_expand n _ grp fullp he)]

/-- With an integer seed stored, the numerical fitting step is
independent of the scheduling oracle. -/
theorem _fit_numerical_det (e : Env) (o1 o2 : Nat) (st : DenseClus) (n : Int)
    (hrs : st.random_state = some n) :
    st._fit_numerical { e with oracle := o1 } =
      st._fit_numerical { e with oracle := o2 } := by
  unfold DenseClus._fit_numerical
  rw [hrs]
  simp only [rsValue, nJobsValue]
  cases hg : subscriptGroup st.umap_params "numerical" with
  | error e' => simp [hg]
  | ok grp =>
    simp only [hg]
    cases he : kwargsExpand
        [("random_state", .int n), ("n_jobs", .int 1), ("verbose", .bool false)] grp with
    | error e' => simp [he]
    | ok fullp =>
      simp only [he]
      cases hc : st.numerical_ with
      | none => simp [hc]
      | some num =>
        simp only [hc]
        rw [umapFit_oracle e o1 o2 fullp num (seededSingle_expand n _ grp fullp he)]

/-- With an integer seed stored, the fusing step is independent of
the scheduling oracle. -/
theorem _umap_embeddings_det (e : Env) (o1 o2 : Nat) (st : DenseClus) (n : Int)
    (hrs : st.random_state = some n) :
    st._umap_embeddings { e with oracle := o1 } =
      st._umap_embeddings { e with oracle := o2 } := by
  unfold DenseClus._umap_embeddings
  rw [hrs]
  simp only [rsValue, nJobsValue]
  split_ifs
  · rfl
  · rfl
  · rfl
  · cases hg : subscriptGroup st.umap_params "combined" with
    | error e' => simp [hg]
    | ok grp =>
      simp only [hg]
      cases he : kwargsExpand [("random_state", .int n), ("n_jobs", .int 1)] grp with
      | error e' => simp [he]
      | ok fullp =>
        simp only [he]
        cases hc : st.numerical_ with
        | none => simp [hc]
        | some numdata =>
          simp only [hc]
          rw [umapFit_oracle e o1 o2 fullp numdata (seededSingle_expand n _ grp fullp he)]
  · rfl

/-- C8 amended: with a fixed integer seed stored at construction,
`fit` is a function of the instance and the input table alone — two
runs under environments differing only in the scheduling oracle
return identical outcomes, states and logs (hence identical cluster
models, labels and strengths), because every delegated embedding
(UMAP) fit call is forced into single-threaded, seeded mode and the
delegated cluster fit is deterministic in its inputs even though it
receives no thread or seed forcing (see the counterexample). -/
theorem fit_deterministic_with_seed (e : Env) (o1 o2 : Nat) (st : DenseClus)
    (n : Int) (df : PyObj) (hrs : st.random_state = some n) :
    DenseClus.fit { e with oracle := o1 } st df =
      DenseClus.fit { e with oracle := o2 } st df := by
  unfold DenseClus.fit
  cases df with
  | nonDf s => rfl
  | df d =>
    simp only [extract_categorical, extract_numerical]
    rw [_fit_categorical_det e o1 o2
      { st with categorical_ := some (.extractCat d), numerical_ := some (.extractNum d) }
      n hrs]
    rcases h1 : DenseClus._fit_categorical { e with oracle := o2 }
        { st with categorical_ := some (.extractCat d),
                  numerical_ := some (.extractNum d) } with ⟨r1, st3, lc⟩
    have hrs3 : st3.random_state = some n := by
      have := _fit_categorical_rs { e with oracle := o2 }
        { st with categorical_ := some (.extractCat d),
                  numerical_ := some (.extractNum d) }
      rw [h1] at this
      exact this.trans hrs
    cases r1 with
    | error e1 => rfl
    | ok u1 =>
      dsimp only
      rw [_fit_numerical_det e o1 o2 st3 n hrs3]
      rcases h2 : DenseClus._fit_numerical { e with oracle := o2 } st3 with ⟨r2, st4, ln⟩
      have hrs4 : st4.random_state = some n := by
        have := _fit_numerical_rs { e with oracle := o2 } st3
        rw [h2] at this
        exact this.trans hrs3
      cases r2 with
      | error e2 => rfl
      | ok u2 =>
        dsimp only
        rw [_umap_embeddings_det e o1 o2 st4 n hrs4]
        rcases h3 : DenseClus._umap_embeddings { e with oracle := o2 } st4 with ⟨r3, st5, lu⟩
        cases r3 with
        | error e3 => rfl
        | ok u3 => rfl

/-- Witness for the amended C8: two concrete seeded runs under
different oracles coincide. -/
theorem fit_deterministic_with_seed_witness :
    DenseClus.fit { env0 with oracle := 0 } (initOr "intersection") (.df df0) =
      DenseClus.fit { env0 with oracle := 5 } (initOr "intersection") (.df df0) :=
  fit_deterministic_with_seed env0 0 5 (initOr "intersection") 42 (.df df0) rfl

end DenseClusModel
